import Mathlib

/-!
Verification of the query-construction and record-classification pipeline of
the Jurimetria repository (jurimetria_datajud.py, jurimetria_datajud_2.py,
jurimetria_rce_saude.py).

The Python code manipulates JSON dictionaries, so the embedding works over a
small JSON value type.  Python operations that can raise (attribute access on
None, `.lower()` on a non-string, iterating a non-iterable, string-joining
non-strings) are modelled in the `Except String` monad; operations that are
total in Python are modelled as total Lean functions.  Machine-level details
that no theorem depends on (the repr used by `str()` on containers, the
iteration order of Python's `set`) are modelled up to a documented choice.
-/

/-- JSON values, as produced by `response.json()` and consumed by the scripts.
Numbers are modelled as integers (the fields used by the code — codes, sizes —
are integral); objects are key/value lists in insertion order. -/
inductive Json where
  | null : Json
  | bool (b : Bool) : Json
  | num (n : Int) : Json
  | str (s : String) : Json
  | arr (elems : List Json) : Json
  | obj (kvs : List (String × Json)) : Json

/-- Python truthiness (`if x:`) for the JSON values above: `None`, `False`,
`0`, `""`, `[]` and `{}` are falsy, everything else truthy. -/
def pyTruthy : Json → Bool
  | Json.null => false
  | Json.bool b => b
  | Json.num n => n != 0
  | Json.str s => s != ""
  | Json.arr xs => !xs.isEmpty
  | Json.obj kvs => !kvs.isEmpty

/-- Truthiness of an optional string (Python `None`-or-`str` values such as
`data_primeira_tutela`): `None` and `""` are falsy. -/
def optStrTruthy : Option String → Bool
  | none => false
  | some s => s != ""

/-- `d.get(k, default)` on a Python dict: the stored value (which may be JSON
null) when the key is present, the default otherwise.  On a non-dict the
attribute lookup raises `AttributeError`.  Objects are assumed to have unique
keys, as JSON objects decoded by `response.json()` do. -/
def pyGet (j : Json) (k : String) (default : Json) : Except String Json :=
  match j with
  | Json.obj kvs => Except.ok ((List.lookup k kvs).getD default)
  | _ => Except.error "AttributeError: get"

/-- `d[k]` on a Python value: `KeyError` when the key is missing, `TypeError`
when the value is not a dict at all. -/
def pyIndex (j : Json) (k : String) : Except String Json :=
  match j with
  | Json.obj kvs =>
    match List.lookup k kvs with
    | some v => Except.ok v
    | none => Except.error "KeyError"
  | _ => Except.error "TypeError: not subscriptable"

/-- `for x in j`: lists iterate their elements, strings their characters,
dicts their keys; other values raise `TypeError`. -/
def pyIter (j : Json) : Except String (List Json) :=
  match j with
  | Json.arr xs => Except.ok xs
  | Json.str s => Except.ok (s.data.map (fun c => Json.str (String.mk [c])))
  | Json.obj kvs => Except.ok (kvs.map (fun kv => Json.str kv.1))
  | _ => Except.error "TypeError: not iterable"

/-- `'k' in j` (membership): key lookup on dicts, substring test on strings,
element equality on lists; `TypeError` on the rest. -/
def leadsList : List Char → List Char → Bool
  | [], _ => true
  | _ :: _, [] => false
  | a :: as, b :: bs => a == b && leadsList as bs

/-- Substring occurrence on character lists (Python `needle in hay` for
strings); the empty needle occurs everywhere, as in Python. -/
def hasSubList (needle : List Char) (hay : List Char) : Bool :=
  match hay with
  | [] => needle.isEmpty
  | _ :: tl => leadsList needle hay || hasSubList needle tl

/-- Python `needle in hay` for strings. -/
def pyInStr (needle hay : String) : Bool :=
  hasSubList needle.data hay.data

/-- Python `k in j` where `k` is a string. -/
def pyContainsKey (j : Json) (k : String) : Except String Bool :=
  match j with
  | Json.obj kvs => Except.ok (List.lookup k kvs).isSome
  | Json.str s => Except.ok (pyInStr k s)
  | Json.arr xs =>
    Except.ok (xs.any (fun x => match x with | Json.str s => s == k | _ => false))
  | _ => Except.error "TypeError: argument of type is not iterable"

/-- `str.lower()` on the Latin-1 range, which covers the Portuguese movement
names in this dataset: ASCII `A`–`Z` and the accented capitals `À`–`Þ`
(except `×`) shift down by 32; everything else is unchanged. -/
def pyLowerChar (c : Char) : Char :=
  if 65 ≤ c.toNat ∧ c.toNat ≤ 90 then Char.ofNat (c.toNat + 32)
  else if 192 ≤ c.toNat ∧ c.toNat ≤ 222 ∧ c.toNat ≠ 215 then Char.ofNat (c.toNat + 32)
  else c

/-- `s.lower()` for strings. -/
def pyLower (s : String) : String :=
  String.mk (s.data.map pyLowerChar)

/-- `str(x)` / f-string formatting for the scalar JSON values the scripts
format (codes).  Python's repr of containers is not modelled — no theorem
below depends on it, the formatted values only flow into export columns. -/
def pyStr : Json → String
  | Json.null => "None"
  | Json.bool true => "True"
  | Json.bool false => "False"
  | Json.num n => toString n
  | Json.str s => s
  | Json.arr _ => "<list>"
  | Json.obj _ => "<dict>"

/-- `x in codes` for a Python list of ints (`mov_codigo in self.codigos_tutela`):
ints compare numerically, bools compare as 0/1, other values never match. -/
def jsonInIntList (j : Json) (l : List Int) : Bool :=
  match j with
  | Json.num n => l.contains n
  | Json.bool b => l.contains (if b then (1 : Int) else 0)
  | _ => false

/-- `sep.join(xs)`: raises `TypeError` unless every element is a string. -/
def allStrs : List Json → Option (List String)
  | [] => some []
  | Json.str s :: tl => (allStrs tl).map (fun l => s :: l)
  | _ :: _ => none

/-- `sep.join(xs)` for a list of JSON values. -/
def pyJoin (sep : String) (xs : List Json) : Except String String :=
  match allStrs xs with
  | some l => Except.ok (String.intercalate sep l)
  | none => Except.error "TypeError: join"

/-- `Except.ok`-test used to state error-handling properties. -/
def isOkE {α : Type} : Except String α → Bool
  | Except.ok _ => true
  | Except.error _ => false

/-! ## Date handling (`_tratar_data` and the day-difference computations,
jurimetria_rce_saude.py lines 87–108 and 232–258) -/

/-- A parsed timestamp, to second granularity.  `pd.to_datetime` keeps
fractional seconds, but the code only ever uses `.year` and whole-day
differences of dates that carry identical fractional parts (".000"), so the
model works in seconds. -/
structure PDateTime where
  year : Nat
  month : Nat
  day : Nat
  hour : Nat
  minute : Nat
  second : Nat

def digitVal (c : Char) : Option Nat :=
  if c.isDigit then some (c.toNat - 48) else none

def dois (a b : Char) : Option Nat := do
  pure ((← digitVal a) * 10 + (← digitVal b))

def quatro (a b c d : Char) : Option Nat := do
  pure (((← digitVal a) * 10 + (← digitVal b)) * 100 + ((← digitVal c) * 10 + (← digitVal d)))

def bissexto (y : Nat) : Bool :=
  y % 4 == 0 && (y % 100 != 0 || y % 400 == 0)

def dias_no_mes (y m : Nat) : Nat :=
  if m = 2 then (if bissexto y then 29 else 28)
  else if m = 4 ∨ m = 6 ∨ m = 9 ∨ m = 11 then 30
  else 31

/-- Fractional-second digits optionally terminated by `Z`. -/
def fracao_final : List Char → Bool
  | [] => true
  | ['Z'] => true
  | c :: cs => c.isDigit && fracao_final cs

/-- What may follow the seconds field: nothing, `Z`, or `.` plus digits and an
optional `Z` — the layouts the DataJud API emits. -/
def cauda_tempo : List Char → Bool
  | [] => true
  | ['Z'] => true
  | '.' :: c :: cs => c.isDigit && fracao_final cs
  | _ => false

/-- Parse the optional time-of-day part after `YYYY-MM-DD`. -/
def parse_tempo : List Char → Option (Nat × Nat × Nat)
  | [] => some (0, 0, 0)
  | sep :: h1 :: h2 :: ':' :: m1 :: m2 :: ':' :: s1 :: s2 :: resto =>
    if sep == 'T' || sep == ' ' then
      (dois h1 h2).bind fun h =>
      (dois m1 m2).bind fun mi =>
      (dois s1 s2).bind fun se =>
      if h ≤ 23 ∧ mi ≤ 59 ∧ se ≤ 59 ∧ cauda_tempo resto = true then some (h, mi, se)
      else none
    else none
  | _ => none

/-- Model of `pd.to_datetime(s, errors='coerce')` for the ISO-8601 layouts the
API emits (`YYYY-MM-DD`, optionally `T`/space plus `HH:MM:SS`, optional
fractional seconds, optional `Z`); anything else coerces to `NaT` (`none`).
Field ranges are validated, including month lengths and leap years. -/
def pdToDatetime (s : String) : Option PDateTime :=
  match s.data with
  | y1 :: y2 :: y3 :: y4 :: '-' :: m1 :: m2 :: '-' :: d1 :: d2 :: resto =>
    (quatro y1 y2 y3 y4).bind fun y =>
    (dois m1 m2).bind fun m =>
    (dois d1 d2).bind fun d =>
    (parse_tempo resto).bind fun t =>
    if 1 ≤ m ∧ m ≤ 12 ∧ 1 ≤ d ∧ d ≤ dias_no_mes y m then
      some ⟨y, m, d, t.1, t.2.1, t.2.2⟩
    else none
  | _ => none

/-- Day number of a civil date (days since 0000-03-01), the standard
era/year-of-era computation; valid for the years a 4-digit parse produces.
Only differences of this value are ever used. -/
def dias_civil (y m d : Nat) : Nat :=
  let y2 := if m ≤ 2 then y - 1 else y
  let era := y2 / 400
  let yoe := y2 % 400
  let mp := (m + 9) % 12
  let doy := (153 * mp + 2) / 5 + (d - 1)
  let doe := yoe * 365 + yoe / 4 + doy - yoe / 100
  era * 146097 + doe

/-- Timestamp in seconds. -/
def segundos (t : PDateTime) : Nat :=
  dias_civil t.year t.month t.day * 86400 + t.hour * 3600 + t.minute * 60 + t.second

/-- `(t2 - t1).days` for Python datetimes: the floor of the difference in
seconds over 86400 (Python `timedelta` normalises `days` toward minus
infinity). -/
def dias_entre (t1 t2 : PDateTime) : Int :=
  Int.fdiv ((segundos t2 : Int) - (segundos t1 : Int)) 86400

/-- `_tratar_data` (jurimetria_rce_saude.py lines 87–108) on a string input:
falsy input → None; any occurrence of a sentinel year "2261"/"2262"/"2263"
→ None; unparseable → None; year outside [1990, 2030] → None; otherwise the
original string, unchanged. -/
def tratar_data (data_str : String) : Option String :=
  if data_str = "" then none
  else if pyInStr "2263" data_str || pyInStr "2262" data_str || pyInStr "2261" data_str then none
  else
    match pdToDatetime data_str with
    | none => none
    | some dt => if dt.year < 1990 ∨ dt.year > 2030 then none else some data_str

/-- `_tratar_data` on an arbitrary JSON value (the code passes it raw
`source.get(...)` results).  Falsy non-strings return None via the leading
truthiness test; truthy non-strings make the sentinel membership test
`'2263' in data_str` raise `TypeError`, which the function's bare
`except: return None` turns into None.  Either way only string inputs can
be accepted. -/
def tratarDataJson : Json → Option String
  | Json.str s => tratar_data s
  | _ => none

/-! ## Query builders (`construir_query` of jurimetria_datajud.py lines 38–98
and of jurimetria_datajud_2.py lines 98–202) -/

/-- The `date_range` dict built by both `construir_query` implementations
(jurimetria_datajud.py lines 81–92, jurimetria_datajud_2.py lines 176–182):
a `gte` entry for a truthy start bound, then an `lte` entry for a truthy end
bound. -/
def date_range_dict (data_inicio data_fim : Option String) : List (String × Json) :=
  let dr : List (String × Json) := []
  let dr := match data_inicio with
    | some s => if s ≠ "" then dr ++ [("gte", Json.str s)] else dr
    | none => dr
  let dr := match data_fim with
    | some s => if s ≠ "" then dr ++ [("lte", Json.str s)] else dr
    | none => dr
  dr

/-- The `must` clause list accumulated by `construir_query` of
jurimetria_datajud.py: one clause per truthy filter, in the order
class, subject, movement, date range. -/
def construir_query_must (classe_codigo assunto_codigo movimento_codigo : Option Int)
    (data_inicio data_fim : Option String) : List Json :=
  let must : List Json := []
  let must := match classe_codigo with
    | some c =>
      if c ≠ 0 then
        must ++ [Json.obj [("term", Json.obj [("classe.codigo", Json.num c)])]]
      else must
    | none => must
  let must := match assunto_codigo with
    | some c =>
      if c ≠ 0 then
        must ++ [Json.obj [("nested", Json.obj
          [("path", Json.str "assuntos"),
           ("query", Json.obj [("term", Json.obj [("assuntos.codigo", Json.num c)])])])]]
      else must
    | none => must
  let must := match movimento_codigo with
    | some c =>
      if c ≠ 0 then
        must ++ [Json.obj [("nested", Json.obj
          [("path", Json.str "movimentos"),
           ("query", Json.obj [("term", Json.obj [("movimentos.codigo", Json.num c)])])])]]
      else must
    | none => must
  let must := if optStrTruthy data_inicio || optStrTruthy data_fim then
      must ++ [Json.obj [("range", Json.obj
        [("dataAjuizamento", Json.obj (date_range_dict data_inicio data_fim))])]]
    else must
  must

/-- The final query object: the bool/must wrapper is replaced by
`{"match_all": {}}` when no clause was added. -/
def corpo_query (must : List Json) : Json :=
  if must.isEmpty then Json.obj [("match_all", Json.obj [])]
  else Json.obj [("bool", Json.obj [("must", Json.arr must)])]

/-- `construir_query` of jurimetria_datajud.py (lines 38–98): the request
carries the requested size unmodified plus the assembled query. -/
def construir_query (classe_codigo assunto_codigo movimento_codigo : Option Int)
    (data_inicio data_fim : Option String) (tamanho : Int) : Json :=
  Json.obj [("size", Json.num tamanho),
            ("query", corpo_query
              (construir_query_must classe_codigo assunto_codigo movimento_codigo
                data_inicio data_fim))]

/-- The `filtros` list accumulated by `construir_query` of
jurimetria_datajud_2.py: schema-tolerant should-groups, same order. -/
def construir_query_2_filtros (classe_codigo assunto_codigo movimento_codigo : Option Int)
    (data_inicio data_fim : Option String) : List Json :=
  let filtros : List Json := []
  let filtros := match classe_codigo with
    | some c =>
      if c ≠ 0 then
        filtros ++ [Json.obj [("bool", Json.obj
          [("should", Json.arr
            [Json.obj [("term", Json.obj [("classe.codigo", Json.str (toString c))])],
             Json.obj [("term", Json.obj [("classe.codigo", Json.num c)])],
             Json.obj [("match", Json.obj [("classe.codigo", Json.num c)])]]),
           ("minimum_should_match", Json.num 1)])]]
      else filtros
    | none => filtros
  let filtros := match assunto_codigo with
    | some c =>
      if c ≠ 0 then
        filtros ++ [Json.obj [("bool", Json.obj
          [("should", Json.arr
            [Json.obj [("nested", Json.obj
               [("path", Json.str "assuntos"),
                ("query", Json.obj [("bool", Json.obj
                  [("should", Json.arr
                    [Json.obj [("term", Json.obj [("assuntos.codigo", Json.str (toString c))])],
                     Json.obj [("term", Json.obj [("assuntos.codigo", Json.num c)])]])])])])],
             Json.obj [("term", Json.obj [("assunto.codigo", Json.str (toString c))])],
             Json.obj [("term", Json.obj [("assunto.codigo", Json.num c)])]]),
           ("minimum_should_match", Json.num 1)])]]
      else filtros
    | none => filtros
  let filtros := match movimento_codigo with
    | some c =>
      if c ≠ 0 then
        filtros ++ [Json.obj [("bool", Json.obj
          [("should", Json.arr
            [Json.obj [("nested", Json.obj
               [("path", Json.str "movimentos"),
                ("query", Json.obj [("bool", Json.obj
                  [("should", Json.arr
                    [Json.obj [("term", Json.obj [("movimentos.codigo", Json.str (toString c))])],
                     Json.obj [("term", Json.obj [("movimentos.codigo", Json.num c)])]])])])])]]),
           ("minimum_should_match", Json.num 1)])]]
      else filtros
    | none => filtros
  let filtros := if optStrTruthy data_inicio || optStrTruthy data_fim then
      filtros ++ [Json.obj [("bool", Json.obj
        [("should", Json.arr
          [Json.obj [("range", Json.obj
             [("dataAjuizamento", Json.obj (date_range_dict data_inicio data_fim))])],
           Json.obj [("range", Json.obj
             [("dataHoraUltimaAtualizacao", Json.obj (date_range_dict data_inicio data_fim))])],
           Json.obj [("range", Json.obj
             [("@timestamp", Json.obj (date_range_dict data_inicio data_fim))])]]),
         ("minimum_should_match", Json.num 1)])]]
    else filtros
  filtros

/-- `construir_query` of jurimetria_datajud_2.py (lines 98–202): the size is
`min(tamanho, 100)`; the empty filter list again falls back to match-all. -/
def construir_query_2 (classe_codigo assunto_codigo movimento_codigo : Option Int)
    (data_inicio data_fim : Option String) (tamanho : Int) : Json :=
  Json.obj [("size", Json.num (min tamanho 100)),
            ("query", corpo_query
              (construir_query_2_filtros classe_codigo assunto_codigo movimento_codigo
                data_inicio data_fim))]

/-- The `size` field of a built request. -/
def reqSize (j : Json) : Option Json :=
  match j with
  | Json.obj kvs => List.lookup "size" kvs
  | _ => none

/-- The `query` field of a built request. -/
def reqQuery (j : Json) : Option Json :=
  match j with
  | Json.obj kvs => List.lookup "query" kvs
  | _ => none

/-! ## Record classifier (`coletar_processos_detalhados`,
jurimetria_rce_saude.py lines 110–270) -/

/-- `self.codigos_tutela` (jurimetria_rce_saude.py line 44). -/
def codigos_tutela : List Int := [51, 60, 85, 26, 581, 454]

/-- The settlement keyword list of line 201. -/
def termos_acordo : List String := ["acordo", "homologação", "conciliação", "mediação"]

/-- The ruling keyword list of line 214. -/
def termos_sentenca : List String := ["sentença", "julgamento", "decisão"]

/-- The mutable flags and trackers accumulated by the movement loop
(lines 176–215). -/
structure MovState where
  tem_tutela : Bool := false
  tem_acordo : Bool := false
  tem_deferimento : Bool := false
  tem_indeferimento : Bool := false
  tem_sentenca : Bool := false
  movimentos_tutela : List String := []
  movimentos_acordo : List String := []
  data_primeira_tutela : Option String := none
  data_primeiro_acordo : Option String := none
deriving DecidableEq

/-- The earliest-date update of lines 197–198 / 204–205:
`if mov_data and (not cur or mov_data < cur): cur = mov_data`, with Python
truthiness on both operands, short-circuit evaluation and string
comparison. -/
def min_data_update (cur mov_data : Option String) : Option String :=
  match mov_data, cur with
  | none, _ => cur
  | some d, none => if d != "" then some d else none
  | some d, some c => if d != "" && (c == "" || decide (d < c)) then some d else some c

/-- One iteration of the movement loop (lines 187–215).  Non-dict entries are
skipped by the `isinstance` test; for dict entries `movimento.get('nome',
'').lower()` raises `AttributeError` unless the name value is a string. -/
def processar_movimento (st : MovState) (movimento : Json) : Except String MovState :=
  match movimento with
  | Json.obj kvs =>
    let mov_codigo := (List.lookup "codigo" kvs).getD (Json.num 0)
    match (List.lookup "nome" kvs).getD (Json.str "") with
    | Json.str nome_cru =>
      let mov_nome := pyLower nome_cru
      let mov_data := tratarDataJson ((List.lookup "dataHora" kvs).getD (Json.str ""))
      let st := if jsonInIntList mov_codigo codigos_tutela then
          { st with tem_tutela := true,
                    movimentos_tutela := st.movimentos_tutela ++ [pyStr mov_codigo],
                    data_primeira_tutela := min_data_update st.data_primeira_tutela mov_data }
        else st
      let st := if termos_acordo.any (fun termo => pyInStr termo mov_nome) then
          { st with tem_acordo := true,
                    movimentos_acordo := st.movimentos_acordo ++ [pyStr mov_codigo],
                    data_primeiro_acordo := min_data_update st.data_primeiro_acordo mov_data }
        else st
      let st := if pyInStr "deferimento" mov_nome && !pyInStr "indeferimento" mov_nome then
          { st with tem_deferimento := true }
        else if pyInStr "indeferimento" mov_nome then
          { st with tem_indeferimento := true }
        else st
      let st := if termos_sentenca.any (fun termo => pyInStr termo mov_nome) then
          { st with tem_sentenca := true }
        else st
      Except.ok st
    | _ => Except.error "AttributeError: lower"
  | _ => Except.ok st

/-- The whole movement loop, left to right. -/
def processar_movimentos : List Json → MovState → Except String MovState
  | [], st => Except.ok st
  | m :: ms, st =>
    match processar_movimento st m with
    | Except.ok st2 => processar_movimentos ms st2
    | Except.error e => Except.error e

/-- The day-difference blocks (lines 233–244 for tutela→acordo and 247–258
for tramitação): both operands truthy, then `pd.to_datetime` on each —
unparseable input raises and the bare `except` yields None — then
`(second - first).days`. -/
def calc_dias (d1 d2 : Option String) : Option Int :=
  match d1, d2 with
  | some t, some a =>
    if t != "" && a != "" then
      match pdToDatetime t, pdToDatetime a with
      | some dt, some da => some (dias_entre dt da)
      | _, _ => none
    else none
  | _, _ => none

/-- One iteration of the subject loop (lines 160–167): dict entries contribute
`str(codigo)` when the code is truthy and the raw name value when the name is
truthy; everything else is skipped. -/
def coletar_assunto (acc : List String × List Json) (assunto : Json) :
    List String × List Json :=
  match assunto with
  | Json.obj kvs =>
    let codigo := (List.lookup "codigo" kvs).getD (Json.str "")
    let nome := (List.lookup "nome" kvs).getD (Json.str "")
    let acc := if pyTruthy codigo then (acc.1 ++ [pyStr codigo], acc.2) else acc
    let acc := if pyTruthy nome then (acc.1, acc.2 ++ [nome]) else acc
    acc
  | _ => acc

/-- `'; '.join(set(xs))` of lines 225–226.  Python's set iteration order is
unspecified; the model joins the distinct elements in an arbitrary but fixed
order (no theorem depends on this field). -/
def py_set_join (l : List String) : String :=
  String.intercalate "; " l.dedup

/-- One `processo_base` row, with the fields the loop body stores
(lines 145–258). -/
structure ProcessoBase where
  numero_processo : Json
  classe_codigo : Json
  classe_nome : Json
  data_ajuizamento : Option String
  data_ultima_atualizacao : Option String
  orgao_codigo : Json
  orgao_nome : Json
  assuntos_codigos : String
  assuntos_nomes : String
  tem_tutela : Bool
  tem_acordo : Bool
  tem_deferimento : Bool
  tem_indeferimento : Bool
  tem_sentenca : Bool
  tutela_e_acordo : Bool
  movimentos_tutela : String
  movimentos_acordo : String
  data_primeira_tutela : Option String
  data_primeiro_acordo : Option String
  total_movimentos : Nat
  dias_tutela_acordo : Option Int
  dias_tramitacao : Option Int

/-- The loop body of `coletar_processos_detalhados` for one `_source` record
(lines 138–258), in source order: date sanitization, identifying fields
(a null `classe`/`orgaoJulgador` makes the chained `.get` raise), the subject
scan and its joins (a truthy non-string subject name makes `'; '.join`
raise), the movement scan, and the two day counts. -/
def processar_fonte (source : Json) : Except String ProcessoBase := do
  let data_ajuizamento := tratarDataJson (← pyGet source "dataAjuizamento" (Json.str ""))
  let data_ultima_atualizacao :=
    tratarDataJson (← pyGet source "dataHoraUltimaAtualizacao" (Json.str ""))
  let numero_processo ← pyGet source "numeroProcesso" (Json.str "")
  let classe_codigo ← pyGet (← pyGet source "classe" (Json.obj [])) "codigo" (Json.str "")
  let classe_nome ← pyGet (← pyGet source "classe" (Json.obj [])) "nome" (Json.str "")
  let orgao_codigo ← pyGet (← pyGet source "orgaoJulgador" (Json.obj [])) "codigo" (Json.str "")
  let orgao_nome ← pyGet (← pyGet source "orgaoJulgador" (Json.obj [])) "nome" (Json.str "")
  let assuntos ← pyGet source "assuntos" (Json.arr [])
  let assuntoItens ← pyIter assuntos
  let acc := assuntoItens.foldl coletar_assunto ([], [])
  let assuntos_codigos := String.intercalate "; " acc.1
  let assuntos_nomes ← pyJoin "; " acc.2
  let movimentos ← pyGet source "movimentos" (Json.arr [])
  let movItens ← pyIter movimentos
  let st ← processar_movimentos movItens {}
  Except.ok
    { numero_processo := numero_processo
      classe_codigo := classe_codigo
      classe_nome := classe_nome
      data_ajuizamento := data_ajuizamento
      data_ultima_atualizacao := data_ultima_atualizacao
      orgao_codigo := orgao_codigo
      orgao_nome := orgao_nome
      assuntos_codigos := assuntos_codigos
      assuntos_nomes := assuntos_nomes
      tem_tutela := st.tem_tutela
      tem_acordo := st.tem_acordo
      tem_deferimento := st.tem_deferimento
      tem_indeferimento := st.tem_indeferimento
      tem_sentenca := st.tem_sentenca
      tutela_e_acordo := st.tem_tutela && st.tem_acordo
      movimentos_tutela := py_set_join st.movimentos_tutela
      movimentos_acordo := py_set_join st.movimentos_acordo
      data_primeira_tutela := st.data_primeira_tutela
      data_primeiro_acordo := st.data_primeiro_acordo
      total_movimentos := movItens.length
      dias_tutela_acordo := calc_dias st.data_primeira_tutela st.data_primeiro_acordo
      dias_tramitacao := calc_dias data_ajuizamento data_ultima_atualizacao }

/-- `for hit in resultado['hits']['hits']`, collecting one row per hit. -/
def processar_hits : List Json → Except String (List ProcessoBase)
  | [] => Except.ok []
  | hit :: tl => do
    let source ← pyIndex hit "_source"
    let pb ← processar_fonte source
    let resto ← processar_hits tl
    Except.ok (pb :: resto)

/-- `coletar_processos_detalhados` applied to an already-fetched response
(jurimetria_rce_saude.py lines 131–260): a falsy response or one without a
`hits` key yields the empty row list; otherwise every hit is classified. -/
def coletar_processos_detalhados (resultado : Json) : Except String (List ProcessoBase) :=
  if !pyTruthy resultado then Except.ok []
  else
    match pyContainsKey resultado "hits" with
    | Except.error e => Except.error e
    | Except.ok b =>
      if !b then Except.ok []
      else do
        let hits1 ← pyIndex resultado "hits"
        let hits2 ← pyIndex hits1 "hits"
        let hitList ← pyIter hits2
        processar_hits hitList

/-! ## `extrair_informacoes` (identical in jurimetria_datajud.py lines 123–153
and jurimetria_datajud_2.py lines 288–318) -/

/-- One summary row produced by `extrair_informacoes`. -/
structure InfoProcesso where
  numero : Json
  classe : Json
  orgao : Json
  data_ajuizamento : Json
  assuntos : List Json
  ultimo_movimento : Option (Json × Json)

/-- Python `>` between the key values compared by `max(..., key=...)`:
strings compare lexicographically, numbers numerically, booleans as 0/1;
mixed comparisons raise `TypeError`. -/
def pyGt (x y : Json) : Except String Bool :=
  match x, y with
  | Json.str a, Json.str b => Except.ok (decide (b < a))
  | Json.num a, Json.num b => Except.ok (decide (b < a))
  | Json.num a, Json.bool b => Except.ok (decide ((if b then (1 : Int) else 0) < a))
  | Json.bool a, Json.num b => Except.ok (decide (b < (if a then (1 : Int) else 0)))
  | Json.bool a, Json.bool b =>
    Except.ok (decide ((if b then (1 : Int) else 0) < (if a then (1 : Int) else 0)))
  | _, _ => Except.error "TypeError: comparison"

/-- The scan performed by `max(movimentos, key=lambda x: x.get('dataHora', ''))`:
keep the current maximum, replacing it only on strictly greater keys (so the
first maximum wins, as in Python). -/
def py_max_go : List Json → Json → Except String Json
  | [], cur => Except.ok cur
  | y :: ys, cur => do
    let kc ← pyGet cur "dataHora" (Json.str "")
    let ky ← pyGet y "dataHora" (Json.str "")
    let g ← pyGt ky kc
    py_max_go ys (if g then y else cur)

/-- `max(xs, key=lambda x: x.get('dataHora', ''))`. -/
def py_max_data_hora (xs : List Json) : Except String Json :=
  match xs with
  | [] => Except.error "ValueError: max of empty sequence"
  | x :: tl => py_max_go tl x

/-- The subject comprehension
`[assunto.get('nome', 'N/A') for assunto in ...]`. -/
def extrair_assuntos : List Json → Except String (List Json)
  | [] => Except.ok []
  | a :: tl => do
    let nome ← pyGet a "nome" (Json.str "N/A")
    let resto ← extrair_assuntos tl
    Except.ok (nome :: resto)

/-- The loop body of `extrair_informacoes` for one hit. -/
def extrair_hit (hit : Json) : Except String InfoProcesso := do
  let processo ← pyIndex hit "_source"
  let numero ← pyGet processo "numeroProcesso" (Json.str "N/A")
  let classe ← pyGet (← pyGet processo "classe" (Json.obj [])) "nome" (Json.str "N/A")
  let orgao ← pyGet (← pyGet processo "orgaoJulgador" (Json.obj [])) "nome" (Json.str "N/A")
  let data_ajuizamento ← pyGet processo "dataAjuizamento" (Json.str "N/A")
  let assuntosJ ← pyGet processo "assuntos" (Json.arr [])
  let assuntoItens ← pyIter assuntosJ
  let assuntos ← extrair_assuntos assuntoItens
  let movimentosJ ← pyGet processo "movimentos" (Json.arr [])
  let ultimo ← if pyTruthy movimentosJ then do
      let movItens ← pyIter movimentosJ
      let um ← py_max_data_hora movItens
      let nome ← pyGet um "nome" (Json.str "N/A")
      let dataHora ← pyGet um "dataHora" (Json.str "N/A")
      Except.ok (some (nome, dataHora))
    else Except.ok none
  Except.ok
    { numero := numero
      classe := classe
      orgao := orgao
      data_ajuizamento := data_ajuizamento
      assuntos := assuntos
      ultimo_movimento := ultimo }

/-- The hit loop of `extrair_informacoes`. -/
def extrair_hits : List Json → Except String (List InfoProcesso)
  | [] => Except.ok []
  | hit :: tl => do
    let info ← extrair_hit hit
    let resto ← extrair_hits tl
    Except.ok (info :: resto)

/-- `extrair_informacoes` (jurimetria_datajud.py lines 123–153 and, verbatim,
jurimetria_datajud_2.py lines 288–318): a falsy result or one without a
`hits` key yields the empty list. -/
def extrair_informacoes (resultado : Json) : Except String (List InfoProcesso) :=
  if !pyTruthy resultado then Except.ok []
  else
    match pyContainsKey resultado "hits" with
    | Except.error e => Except.error e
    | Except.ok b =>
      if !b then Except.ok []
      else do
        let hits1 ← pyIndex resultado "hits"
        let hits2 ← pyIndex hits1 "hits"
        let hitList ← pyIter hits2
        extrair_hits hitList

/-! ## Basic lemmas -/

@[simp] theorem exc_bind_ok {α β : Type} (a : α) (f : α → Except String β) :
    (Except.ok a >>= f) = f a := rfl

@[simp] theorem exc_bind_err {α β : Type} (e : String) (f : α → Except String β) :
    ((Except.error e : Except String α) >>= f) = Except.error e := rfl

theorem exc_bind_eq_ok {α β : Type} {x : Except String α} {f : α → Except String β} {b : β}
    (h : (x >>= f) = Except.ok b) : ∃ a, x = Except.ok a ∧ f a = Except.ok b := by
  cases x with
  | ok a => exact ⟨a, rfl, h⟩
  | error e => simp at h

/-- `_tratar_data` only ever returns its own (nonempty) input. -/
theorem tratar_data_eq (s t : String) (h : tratar_data s = some t) : t = s ∧ s ≠ "" := by
  unfold tratar_data at h
  by_cases h1 : s = ""
  · simp [h1] at h
  · refine ⟨?_, h1⟩
    simp only [h1, if_false] at h
    split at h
    · simp at h
    · split at h
      · simp at h
      · split at h
        · simp at h
        · injection h with h
          exact h.symm

theorem tratarDataJson_eq (j : Json) (t : String) (h : tratarDataJson j = some t) :
    t ≠ "" := by
  cases j <;> simp [tratarDataJson] at h
  rename_i s
  rcases tratar_data_eq s t h with ⟨rfl, hne⟩
  exact hne

/-! ## Claims about the query builders -/

/-- C3. `_tratar_data` returns either `None` or its input unchanged, and it
returns the input exactly when the input is nonempty, contains none of the
sentinel substrings "2261"/"2262"/"2263", parses as a date-time, and the
parsed year lies in [1990, 2030]. -/
theorem tratar_data_spec (s : String) :
    (tratar_data s = none ∨ tratar_data s = some s) ∧
    (tratar_data s = some s ↔
      s ≠ "" ∧ pyInStr "2261" s = false ∧ pyInStr "2262" s = false ∧
      pyInStr "2263" s = false ∧
      ∃ dt, pdToDatetime s = some dt ∧ 1990 ≤ dt.year ∧ dt.year ≤ 2030) := by
  constructor
  · rcases hres : tratar_data s with _ | t
    · exact Or.inl rfl
    · rcases tratar_data_eq s t hres with ⟨rfl, _⟩
      exact Or.inr rfl
  constructor
  · intro h
    unfold tratar_data at h
    by_cases h1 : s = ""
    · simp [h1] at h
    simp only [h1, if_false] at h
    cases h2 : pyInStr "2263" s <;> cases h3 : pyInStr "2262" s <;>
        cases h4 : pyInStr "2261" s <;> rw [h2, h3, h4] at h <;> simp at h
    cases h5 : pdToDatetime s <;> rw [h5] at h
    · simp at h
    rename_i dt
    change (if dt.year < 1990 ∨ dt.year > 2030 then none else some s) = some s at h
    by_cases h6 : dt.year < 1990 ∨ dt.year > 2030
    · rw [if_pos h6] at h; simp at h
    · exact ⟨h1, rfl, rfl, rfl, dt, rfl, by omega, by omega⟩
  · rintro ⟨h1, h4, h3, h2, dt, h5, hy1, hy2⟩
    unfold tratar_data
    rw [if_neg h1, h2, h3, h4]
    simp only [Bool.or_self, Bool.or_false, Bool.false_or, Bool.false_eq_true, if_false]
    rw [h5]
    show (if dt.year < 1990 ∨ dt.year > 2030 then none else some s) = some s
    rw [if_neg (by omega)]

/-- C1 (counterexample).  The first builder does not clamp at all: a requested
size of 200 is emitted as 200, not 100; and the second builder enforces no
lower bound: a requested size of 0 is emitted as the non-positive 0. -/
theorem clamp_tamanho_contra :
    reqSize (construir_query none none none none none 200) = some (Json.num 200) ∧
    (Json.num 200 : Json) ≠ Json.num 100 ∧
    reqSize (construir_query_2 none none none none none 0) = some (Json.num 0) ∧
    ¬(1 : Int) ≤ 0 := by
  refine ⟨rfl, by simp, rfl, by decide⟩

/-- C1 (amended).  `construir_query` of jurimetria_datajud.py passes the
requested size through unmodified, and `construir_query` of
jurimetria_datajud_2.py emits `min(tamanho, 100)` — an upper clamp at 100 but
no lower bound. -/
theorem clamp_tamanho_amended (c a m : Option Int) (di df : Option String) (t : Int) :
    reqSize (construir_query c a m di df t) = some (Json.num t) ∧
    reqSize (construir_query_2 c a m di df t) = some (Json.num (min t 100)) :=
  ⟨rfl, rfl⟩

/-- C7.  With every filter unset, both builders emit exactly the match-all
query object, never an empty boolean-must wrapper. -/
theorem match_all_sem_filtros (t : Int) :
    construir_query none none none none none t =
      Json.obj [("size", Json.num t),
                ("query", Json.obj [("match_all", Json.obj [])])] ∧
    construir_query_2 none none none none none t =
      Json.obj [("size", Json.num (min t 100)),
                ("query", Json.obj [("match_all", Json.obj [])])] :=
  ⟨rfl, rfl⟩

/-- C10.  A code equal to 0 is treated exactly like an unset field by both
builders (the guards test Python truthiness), and a filter spec whose only
set field is a zero class code builds the match-all query. -/
theorem codigo_zero_como_ausente (c a m : Option Int) (di df : Option String) (t : Int) :
    construir_query (some 0) a m di df t = construir_query none a m di df t ∧
    construir_query c (some 0) m di df t = construir_query c none m di df t ∧
    construir_query c a (some 0) di df t = construir_query c a none di df t ∧
    construir_query_2 (some 0) a m di df t = construir_query_2 none a m di df t ∧
    construir_query_2 c (some 0) m di df t = construir_query_2 c none m di df t ∧
    construir_query_2 c a (some 0) di df t = construir_query_2 c a none di df t ∧
    reqQuery (construir_query (some 0) none none none none t) =
      some (Json.obj [("match_all", Json.obj [])]) ∧
    reqQuery (construir_query_2 (some 0) none none none none t) =
      some (Json.obj [("match_all", Json.obj [])]) :=
  ⟨rfl, rfl, rfl, rfl, rfl, rfl, rfl, rfl⟩

/-! ## Per-movement trigger predicates (specification views of the loop
conditions of lines 187–215) -/

/-- The lowered movement name, when the movement is a dict whose name value
is a string (the only case the loop processes without raising). -/
def nome_mov (m : Json) : Option String :=
  match m with
  | Json.obj kvs =>
    match (List.lookup "nome" kvs).getD (Json.str "") with
    | Json.str s => some (pyLower s)
    | _ => none
  | _ => none

/-- Line 194: the movement code is a member of `codigos_tutela`. -/
def tutela_trig (m : Json) : Bool :=
  match m with
  | Json.obj kvs => jsonInIntList ((List.lookup "codigo" kvs).getD (Json.num 0)) codigos_tutela
  | _ => false

/-- Line 201: a settlement keyword occurs in the lowered name. -/
def acordo_trig (m : Json) : Bool :=
  match nome_mov m with
  | some nm => termos_acordo.any (fun termo => pyInStr termo nm)
  | none => false

/-- Line 208: "deferimento" occurs and "indeferimento" does not. -/
def grant_trig (m : Json) : Bool :=
  match nome_mov m with
  | some nm => pyInStr "deferimento" nm && !pyInStr "indeferimento" nm
  | none => false

/-- Line 210: "indeferimento" occurs. -/
def denial_trig (m : Json) : Bool :=
  match nome_mov m with
  | some nm => pyInStr "indeferimento" nm
  | none => false

/-- Line 214: a ruling keyword occurs in the lowered name. -/
def sentenca_trig (m : Json) : Bool :=
  match nome_mov m with
  | some nm => termos_sentenca.any (fun termo => pyInStr termo nm)
  | none => false

/-- The movement's sanitized date (line 191). -/
def data_mov (m : Json) : Option String :=
  match m with
  | Json.obj kvs => tratarDataJson ((List.lookup "dataHora" kvs).getD (Json.str ""))
  | _ => none

/-- The sanitized date a movement contributes to the relief tracker. -/
def data_tutela (m : Json) : Option String :=
  if tutela_trig m then data_mov m else none

/-- The sanitized date a movement contributes to the settlement tracker. -/
def data_acordo (m : Json) : Option String :=
  if acordo_trig m then data_mov m else none

/-- The raw code value formatted by the f-strings of lines 196/203. -/
def codigo_mov (m : Json) : Json :=
  match m with
  | Json.obj kvs => (List.lookup "codigo" kvs).getD (Json.num 0)
  | _ => Json.num 0

/-- Specification view of one successful loop iteration: what lines 187–215
do to every tracked component. -/
def passo (st : MovState) (m : Json) : MovState :=
  { tem_tutela := st.tem_tutela || tutela_trig m
    tem_acordo := st.tem_acordo || acordo_trig m
    tem_deferimento := st.tem_deferimento || grant_trig m
    tem_indeferimento := st.tem_indeferimento || denial_trig m
    tem_sentenca := st.tem_sentenca || sentenca_trig m
    movimentos_tutela :=
      st.movimentos_tutela ++ (if tutela_trig m then [pyStr (codigo_mov m)] else [])
    movimentos_acordo :=
      st.movimentos_acordo ++ (if acordo_trig m then [pyStr (codigo_mov m)] else [])
    data_primeira_tutela := min_data_update st.data_primeira_tutela (data_tutela m)
    data_primeiro_acordo := min_data_update st.data_primeiro_acordo (data_acordo m) }

/-- A skipped (non-dict) movement leaves the state untouched under `passo`. -/
theorem passo_nao_obj (st : MovState) (m : Json)
    (hm : (match m with | Json.obj _ => False | _ => True)) : passo st m = st := by
  cases m <;>
    simp [passo, tutela_trig, acordo_trig, grant_trig, denial_trig, sentenca_trig,
      data_tutela, data_acordo, data_mov, nome_mov, codigo_mov, min_data_update] <;>
    exact hm.elim

/-- A successful loop iteration computes exactly `passo`. -/
theorem processar_movimento_ok {st st' : MovState} {m : Json}
    (h : processar_movimento st m = Except.ok st') : st' = passo st m := by
  cases m with
  | obj kvs =>
    unfold processar_movimento at h
    simp only [] at h
    cases hn : (List.lookup "nome" kvs).getD (Json.str "") <;> rw [hn] at h <;>
      simp only [] at h <;> try exact Except.noConfusion h
    rename_i s
    injection h with h
    rw [← h]
    simp only [passo, tutela_trig, acordo_trig, grant_trig, denial_trig, sentenca_trig,
      data_tutela, data_acordo, data_mov, nome_mov, codigo_mov, hn]
    cases hb1 : jsonInIntList ((List.lookup "codigo" kvs).getD (Json.num 0)) codigos_tutela <;>
      cases hb2 : termos_acordo.any (fun termo => pyInStr termo (pyLower s)) <;>
      cases hb3 : pyInStr "deferimento" (pyLower s) <;>
      cases hb4 : pyInStr "indeferimento" (pyLower s) <;>
      cases hb5 : termos_sentenca.any (fun termo => pyInStr termo (pyLower s)) <;>
      simp [hb1, hb2, hb3, hb4, hb5, min_data_update]
  | null =>
    unfold processar_movimento at h
    simp only [] at h
    injection h with h
    rw [← h, passo_nao_obj st Json.null trivial]
  | bool b =>
    unfold processar_movimento at h
    simp only [] at h
    injection h with h
    rw [← h, passo_nao_obj st (Json.bool b) trivial]
  | num n =>
    unfold processar_movimento at h
    simp only [] at h
    injection h with h
    rw [← h, passo_nao_obj st (Json.num n) trivial]
  | str s =>
    unfold processar_movimento at h
    simp only [] at h
    injection h with h
    rw [← h, passo_nao_obj st (Json.str s) trivial]
  | arr xs =>
    unfold processar_movimento at h
    simp only [] at h
    injection h with h
    rw [← h, passo_nao_obj st (Json.arr xs) trivial]

/-- A successful run of the loop folds `passo` from left to right. -/
theorem processar_movimentos_ok {movs : List Json} {st st' : MovState}
    (h : processar_movimentos movs st = Except.ok st') :
    st' = movs.foldl passo st := by
  induction movs generalizing st with
  | nil =>
    unfold processar_movimentos at h
    injection h with h
    simp [h.symm]
  | cons m ms ih =>
    unfold processar_movimentos at h
    cases hp : processar_movimento st m <;> rw [hp] at h <;> simp only [] at h
    · exact Except.noConfusion h
    · rename_i st2
      rw [List.foldl_cons, ← processar_movimento_ok hp]
      exact ih h

theorem foldl_passo_tem_tutela (movs : List Json) (st : MovState) :
    (movs.foldl passo st).tem_tutela = (st.tem_tutela || movs.any tutela_trig) := by
  induction movs generalizing st with
  | nil => simp
  | cons m ms ih => simp [ih, passo, Bool.or_assoc]

theorem foldl_passo_tem_acordo (movs : List Json) (st : MovState) :
    (movs.foldl passo st).tem_acordo = (st.tem_acordo || movs.any acordo_trig) := by
  induction movs generalizing st with
  | nil => simp
  | cons m ms ih => simp [ih, passo, Bool.or_assoc]

theorem foldl_passo_tem_deferimento (movs : List Json) (st : MovState) :
    (movs.foldl passo st).tem_deferimento = (st.tem_deferimento || movs.any grant_trig) := by
  induction movs generalizing st with
  | nil => simp
  | cons m ms ih => simp [ih, passo, Bool.or_assoc]

theorem foldl_passo_tem_indeferimento (movs : List Json) (st : MovState) :
    (movs.foldl passo st).tem_indeferimento = (st.tem_indeferimento || movs.any denial_trig) := by
  induction movs generalizing st with
  | nil => simp
  | cons m ms ih => simp [ih, passo, Bool.or_assoc]

theorem foldl_passo_tem_sentenca (movs : List Json) (st : MovState) :
    (movs.foldl passo st).tem_sentenca = (st.tem_sentenca || movs.any sentenca_trig) := by
  induction movs generalizing st with
  | nil => simp
  | cons m ms ih => simp [ih, passo, Bool.or_assoc]

theorem foldl_passo_data_tutela (movs : List Json) (st : MovState) :
    (movs.foldl passo st).data_primeira_tutela
      = (movs.map data_tutela).foldl min_data_update st.data_primeira_tutela := by
  induction movs generalizing st with
  | nil => rfl
  | cons m ms ih => simp [ih, passo]

theorem foldl_passo_data_acordo (movs : List Json) (st : MovState) :
    (movs.foldl passo st).data_primeiro_acordo
      = (movs.map data_acordo).foldl min_data_update st.data_primeiro_acordo := by
  induction movs generalizing st with
  | nil => rfl
  | cons m ms ih => simp [ih, passo]

/-! ## The earliest-wins fold computes the minimum -/

theorem min_data_update_isSome (a : String) (x : Option String) :
    ∃ b, min_data_update (some a) x = some b := by
  cases x with
  | none => exact ⟨a, rfl⟩
  | some d =>
    show ∃ b, (if (d != "" && ((a == "") || decide (d < a))) = true
               then some d else some a) = some b
    split
    · exact ⟨d, rfl⟩
    · exact ⟨a, rfl⟩

theorem foldl_mdu_isSome (l : List (Option String)) (a : String) :
    ∃ b, l.foldl min_data_update (some a) = some b := by
  induction l generalizing a with
  | nil => exact ⟨a, rfl⟩
  | cons x tl ih =>
    rcases min_data_update_isSome a x with ⟨b, hb⟩
    rw [List.foldl_cons, hb]
    exact ih b

theorem foldl_mdu_none (l : List (Option String)) (hne : ∀ s, some s ∈ l → s ≠ "") :
    (l.foldl min_data_update none = none ↔ l.filterMap id = []) := by
  induction l with
  | nil => simp
  | cons x tl ih =>
    have hne' : ∀ s, some s ∈ tl → s ≠ "" := fun s hs => hne s (List.mem_cons_of_mem _ hs)
    cases x with
    | none =>
      rw [List.foldl_cons]
      simpa using ih hne'
    | some d =>
      have hd : d ≠ "" := hne d (List.mem_cons_self _ _)
      rw [List.foldl_cons]
      have hmu : min_data_update none (some d) = some d := by
        simp [min_data_update, hd]
      rw [hmu]
      rcases foldl_mdu_isSome tl d with ⟨b, hb⟩
      rw [hb]
      simp

theorem foldl_mdu_min (l : List (Option String)) (acc : Option String) (d : String)
    (hl : ∀ s, some s ∈ l → s ≠ "")
    (hacc : ∀ a, acc = some a → a ≠ "")
    (h : l.foldl min_data_update acc = some d) :
    (acc = some d ∨ d ∈ l.filterMap id) ∧
    (∀ a, acc = some a → d ≤ a) ∧
    (∀ x, x ∈ l.filterMap id → d ≤ x) := by
  induction l generalizing acc with
  | nil =>
    have h' : acc = some d := h
    refine ⟨Or.inl h', ?_, ?_⟩
    · intro a ha
      rw [h'] at ha
      injection ha with ha
      exact le_of_eq ha
    · intro x hx
      simp at hx
  | cons x tl ih =>
    have hl' : ∀ s, some s ∈ tl → s ≠ "" := fun s hs => hl s (List.mem_cons_of_mem _ hs)
    rw [List.foldl_cons] at h
    cases x with
    | none =>
      rcases ih acc hl' hacc h with ⟨h1, h2, h3⟩
      refine ⟨?_, h2, ?_⟩
      · simpa using h1
      · intro y hy
        exact h3 y (by simpa using hy)
    | some s =>
      have hs : s ≠ "" := hl s (List.mem_cons_self _ _)
      cases acc with
      | none =>
        have hmu : min_data_update none (some s) = some s := by
          simp [min_data_update, hs]
        rw [hmu] at h
        rcases ih (some s) hl'
          (fun a ha => by injection ha with ha; exact ha ▸ hs) h with ⟨h1, h2, h3⟩
        have hds : d ≤ s := h2 s rfl
        refine ⟨Or.inr ?_, ?_, ?_⟩
        · rcases h1 with h1 | h1
          · injection h1 with h1
            simp [h1]
          · simpa using Or.inr (by simpa using h1 : d ∈ tl.filterMap id)
        · intro a ha
          exact absurd ha (by simp)
        · intro y hy
          rcases (by simpa using hy : y = s ∨ some y ∈ tl) with rfl | hy'
          · exact hds
          · exact h3 y (by simpa using hy')
      | some c =>
        have hc : c ≠ "" := hacc c rfl
        have hmu : min_data_update (some c) (some s) = if s < c then some s else some c := by
          simp [min_data_update, hs, hc]
        rw [hmu] at h
        by_cases hlt : s < c
        · rw [if_pos hlt] at h
          rcases ih (some s) hl'
            (fun a ha => by injection ha with ha; exact ha ▸ hs) h with ⟨h1, h2, h3⟩
          have hds : d ≤ s := h2 s rfl
          refine ⟨Or.inr ?_, ?_, ?_⟩
          · rcases h1 with h1 | h1
            · injection h1 with h1
              simp [h1]
            · simpa using Or.inr (by simpa using h1 : d ∈ tl.filterMap id)
          · intro a ha
            injection ha with ha
            subst ha
            exact le_trans hds (le_of_lt hlt)
          · intro y hy
            rcases (by simpa using hy : y = s ∨ some y ∈ tl) with rfl | hy'
            · exact hds
            · exact h3 y (by simpa using hy')
        · rw [if_neg hlt] at h
          have hcs : c ≤ s := le_of_not_lt hlt
          rcases ih (some c) hl' hacc h with ⟨h1, h2, h3⟩
          have hdc : d ≤ c := h2 c rfl
          refine ⟨?_, ?_, ?_⟩
          · rcases h1 with h1 | h1
            · exact Or.inl h1
            · simpa using Or.inr (Or.inr (by simpa using h1 : d ∈ tl.filterMap id))
          · intro a ha
            injection ha with ha
            subst ha
            exact hdc
          · intro y hy
            rcases (by simpa using hy : y = s ∨ some y ∈ tl) with rfl | hy'
            · exact le_trans hdc hcs
            · exact h3 y (by simpa using hy')

@[simp] theorem estado_inicial_tem_tutela : (({} : MovState)).tem_tutela = false := rfl
@[simp] theorem estado_inicial_tem_acordo : (({} : MovState)).tem_acordo = false := rfl
@[simp] theorem estado_inicial_tem_deferimento :
    (({} : MovState)).tem_deferimento = false := rfl
@[simp] theorem estado_inicial_tem_indeferimento :
    (({} : MovState)).tem_indeferimento = false := rfl
@[simp] theorem estado_inicial_tem_sentenca : (({} : MovState)).tem_sentenca = false := rfl
@[simp] theorem estado_inicial_data_tutela :
    (({} : MovState)).data_primeira_tutela = none := rfl
@[simp] theorem estado_inicial_data_acordo :
    (({} : MovState)).data_primeiro_acordo = none := rfl

/-- Successful record classification decomposes into the movement extraction
and the movement fold, with the claim-relevant output fields copied from the
final loop state (lines 217–244). -/
theorem processar_fonte_ok {source : Json} {pb : ProcessoBase}
    (h : processar_fonte source = Except.ok pb) :
    ∃ movsJ movs st,
      pyGet source "movimentos" (Json.arr []) = Except.ok movsJ ∧
      pyIter movsJ = Except.ok movs ∧
      processar_movimentos movs {} = Except.ok st ∧
      pb.tem_tutela = st.tem_tutela ∧
      pb.tem_acordo = st.tem_acordo ∧
      pb.tem_deferimento = st.tem_deferimento ∧
      pb.tem_indeferimento = st.tem_indeferimento ∧
      pb.tem_sentenca = st.tem_sentenca ∧
      pb.tutela_e_acordo = (st.tem_tutela && st.tem_acordo) ∧
      pb.data_primeira_tutela = st.data_primeira_tutela ∧
      pb.data_primeiro_acordo = st.data_primeiro_acordo ∧
      pb.dias_tutela_acordo = calc_dias st.data_primeira_tutela st.data_primeiro_acordo := by
  unfold processar_fonte at h
  obtain ⟨_, _, h⟩ := exc_bind_eq_ok h
  obtain ⟨_, _, h⟩ := exc_bind_eq_ok h
  obtain ⟨_, _, h⟩ := exc_bind_eq_ok h
  obtain ⟨_, _, h⟩ := exc_bind_eq_ok h
  obtain ⟨_, _, h⟩ := exc_bind_eq_ok h
  obtain ⟨_, _, h⟩ := exc_bind_eq_ok h
  obtain ⟨_, _, h⟩ := exc_bind_eq_ok h
  obtain ⟨_, _, h⟩ := exc_bind_eq_ok h
  obtain ⟨_, _, h⟩ := exc_bind_eq_ok h
  obtain ⟨_, _, h⟩ := exc_bind_eq_ok h
  obtain ⟨_, _, h⟩ := exc_bind_eq_ok h
  obtain ⟨_, _, h⟩ := exc_bind_eq_ok h
  obtain ⟨_, _, h⟩ := exc_bind_eq_ok h
  obtain ⟨_, _, h⟩ := exc_bind_eq_ok h
  obtain ⟨movsJ, hJ, h⟩ := exc_bind_eq_ok h
  obtain ⟨movs, hit, h⟩ := exc_bind_eq_ok h
  obtain ⟨st, hst, h⟩ := exc_bind_eq_ok h
  injection h with h
  exact ⟨movsJ, movs, st, hJ, hit, hst, by rw [← h], by rw [← h], by rw [← h],
    by rw [← h], by rw [← h], by rw [← h], by rw [← h], by rw [← h], by rw [← h]⟩

/-- C4.  Over any movement list the loop accepts, the grant flag is set
exactly when some movement's lowered name contains "deferimento" without
containing "indeferimento", and the denial flag exactly when some movement's
lowered name contains "indeferimento"; the two tests are applied to every
movement independently.  Concretely, the single movement
"Indeferimento do pedido de tutela" yields denial without grant. -/
theorem deferimento_indeferimento_spec :
    (∀ (movs : List Json) (st' : MovState),
        processar_movimentos movs {} = Except.ok st' →
        st'.tem_deferimento = movs.any grant_trig ∧
        st'.tem_indeferimento = movs.any denial_trig) ∧
    Except.map (fun st => (st.tem_indeferimento, st.tem_deferimento))
        (processar_movimentos
          [Json.obj [("nome", Json.str "Indeferimento do pedido de tutela")]] {})
      = Except.ok (true, false) := by
  refine ⟨?_, rfl⟩
  intro movs st' h
  rw [processar_movimentos_ok h]
  constructor
  · simpa using foldl_passo_tem_deferimento movs {}
  · simpa using foldl_passo_tem_indeferimento movs {}

/-- C8.  Every boolean flag is monotone in the movement list: appending one
movement can set flags but never clears one the shorter list already set. -/
theorem flags_monotonas (movs : List Json) (m : Json) (st1 st2 : MovState)
    (h1 : processar_movimentos movs {} = Except.ok st1)
    (h2 : processar_movimentos (movs ++ [m]) {} = Except.ok st2) :
    (st1.tem_tutela = true → st2.tem_tutela = true) ∧
    (st1.tem_acordo = true → st2.tem_acordo = true) ∧
    (st1.tem_deferimento = true → st2.tem_deferimento = true) ∧
    (st1.tem_indeferimento = true → st2.tem_indeferimento = true) ∧
    (st1.tem_sentenca = true → st2.tem_sentenca = true) := by
  rw [processar_movimentos_ok h1, processar_movimentos_ok h2]
  refine ⟨?_, ?_, ?_, ?_, ?_⟩
  · rw [foldl_passo_tem_tutela, foldl_passo_tem_tutela]
    simp only [List.any_append, Bool.or_eq_true, estado_inicial_tem_tutela]
    tauto
  · rw [foldl_passo_tem_acordo, foldl_passo_tem_acordo]
    simp only [List.any_append, Bool.or_eq_true, estado_inicial_tem_acordo]
    tauto
  · rw [foldl_passo_tem_deferimento, foldl_passo_tem_deferimento]
    simp only [List.any_append, Bool.or_eq_true, estado_inicial_tem_deferimento]
    tauto
  · rw [foldl_passo_tem_indeferimento, foldl_passo_tem_indeferimento]
    simp only [List.any_append, Bool.or_eq_true, estado_inicial_tem_indeferimento]
    tauto
  · rw [foldl_passo_tem_sentenca, foldl_passo_tem_sentenca]
    simp only [List.any_append, Bool.or_eq_true, estado_inicial_tem_sentenca]
    tauto

theorem data_mov_ne (m : Json) (s : String) (h : data_mov m = some s) : s ≠ "" := by
  cases m <;> simp only [data_mov] at h <;> try exact absurd h (by simp)
  exact tratarDataJson_eq _ _ h

theorem data_tutela_ne (m : Json) (s : String) (h : data_tutela m = some s) : s ≠ "" := by
  unfold data_tutela at h
  split at h
  · exact data_mov_ne m s h
  · exact absurd h (by simp)

theorem data_acordo_ne (m : Json) (s : String) (h : data_acordo m = some s) : s ≠ "" := by
  unfold data_acordo at h
  split at h
  · exact data_mov_ne m s h
  · exact absurd h (by simp)

theorem map_data_tutela_ne (movs : List Json) :
    ∀ s, some s ∈ movs.map data_tutela → s ≠ "" := by
  intro s hs
  obtain ⟨m, _, he⟩ := List.mem_map.mp hs
  exact data_tutela_ne m s he

theorem map_data_acordo_ne (movs : List Json) :
    ∀ s, some s ∈ movs.map data_acordo → s ≠ "" := by
  intro s hs
  obtain ⟨m, _, he⟩ := List.mem_map.mp hs
  exact data_acordo_ne m s he

theorem filterMap_id_map (f : Json → Option String) (movs : List Json) :
    (movs.map f).filterMap id = movs.filterMap f := by
  rw [List.filterMap_map]
  rfl

/-- C5.  The relief flag is set exactly when some movement carries a relief
code; the tracked first-relief date is the minimum (in the string order the
code compares with) of the sanitized dates of relief-coded movements, absent
exactly when no relief-coded movement has a date surviving sanitization; and
the settlement keyword scan obeys the same earliest-wins discipline. -/
theorem tutela_earliest_spec (source : Json) (pb : ProcessoBase) (movsJ : Json)
    (movs : List Json)
    (hok : processar_fonte source = Except.ok pb)
    (hJ : pyGet source "movimentos" (Json.arr []) = Except.ok movsJ)
    (hit : pyIter movsJ = Except.ok movs) :
    pb.tem_tutela = movs.any tutela_trig ∧
    (pb.data_primeira_tutela = none ↔ movs.filterMap data_tutela = []) ∧
    (∀ d, pb.data_primeira_tutela = some d →
        d ∈ movs.filterMap data_tutela ∧ ∀ x ∈ movs.filterMap data_tutela, d ≤ x) ∧
    pb.tem_acordo = movs.any acordo_trig ∧
    (pb.data_primeiro_acordo = none ↔ movs.filterMap data_acordo = []) ∧
    (∀ d, pb.data_primeiro_acordo = some d →
        d ∈ movs.filterMap data_acordo ∧ ∀ x ∈ movs.filterMap data_acordo, d ≤ x) := by
  obtain ⟨movsJ', movs', st, hJ', hit', hst, hf1, hf2, _, _, _, _, hd1, hd2, _⟩ :=
    processar_fonte_ok hok
  rw [hJ] at hJ'
  injection hJ' with e1
  subst e1
  rw [hit] at hit'
  injection hit' with e2
  subst e2
  have hrun := processar_movimentos_ok hst
  have hdt : pb.data_primeira_tutela
      = (movs.map data_tutela).foldl min_data_update none := by
    rw [hd1, hrun, foldl_passo_data_tutela]
  have hda : pb.data_primeiro_acordo
      = (movs.map data_acordo).foldl min_data_update none := by
    rw [hd2, hrun, foldl_passo_data_acordo]
  refine ⟨?_, ?_, ?_, ?_, ?_, ?_⟩
  · rw [hf1, hrun, foldl_passo_tem_tutela]
    simp
  · rw [hdt, ← filterMap_id_map data_tutela movs]
    exact foldl_mdu_none _ (map_data_tutela_ne movs)
  · intro d hd
    rw [hdt] at hd
    obtain ⟨h1, _, h3⟩ :=
      foldl_mdu_min _ none d (map_data_tutela_ne movs) (by intro a ha; cases ha) hd
    rw [← filterMap_id_map data_tutela movs]
    refine ⟨?_, h3⟩
    rcases h1 with h1 | h1
    · cases h1
    · exact h1
  · rw [hf2, hrun, foldl_passo_tem_acordo]
    simp
  · rw [hda, ← filterMap_id_map data_acordo movs]
    exact foldl_mdu_none _ (map_data_acordo_ne movs)
  · intro d hd
    rw [hda] at hd
    obtain ⟨h1, _, h3⟩ :=
      foldl_mdu_min _ none d (map_data_acordo_ne movs) (by intro a ha; cases ha) hd
    rw [← filterMap_id_map data_acordo movs]
    refine ⟨?_, h3⟩
    rcases h1 with h1 | h1
    · cases h1
    · exact h1

/-- Tracked first dates are nonempty strings: they only ever come from
`_tratar_data`, which never accepts the empty string. -/
theorem st_datas_ne {movs : List Json} {st : MovState}
    (hst : processar_movimentos movs {} = Except.ok st) :
    (∀ t, st.data_primeira_tutela = some t → t ≠ "") ∧
    (∀ a, st.data_primeiro_acordo = some a → a ≠ "") := by
  have hrun := processar_movimentos_ok hst
  constructor
  · intro t ht
    rw [hrun, foldl_passo_data_tutela] at ht
    simp only [estado_inicial_data_tutela] at ht
    obtain ⟨h1, _, _⟩ :=
      foldl_mdu_min _ none t (map_data_tutela_ne movs) (fun a ha => by cases ha) ht
    rcases h1 with h1 | h1
    · cases h1
    · exact map_data_tutela_ne movs t (by simpa using h1)
  · intro a ha
    rw [hrun, foldl_passo_data_acordo] at ha
    simp only [estado_inicial_data_acordo] at ha
    obtain ⟨h1, _, _⟩ :=
      foldl_mdu_min _ none a (map_data_acordo_ne movs) (fun b hb => by cases hb) ha
    rcases h1 with h1 | h1
    · cases h1
    · exact map_data_acordo_ne movs a (by simpa using h1)

/-- A record whose settlement-keyword movement is dated before its
relief-coded movement: the tracked settlement date precedes the tracked
relief date by 51 days. -/
def fonte_invertida : Json :=
  Json.obj [("movimentos", Json.arr
    [Json.obj [("codigo", Json.num 51), ("nome", Json.str "Conclusão"),
               ("dataHora", Json.str "2024-03-01T00:00:00.000Z")],
     Json.obj [("codigo", Json.num 466), ("nome", Json.str "Homologação de Acordo"),
               ("dataHora", Json.str "2024-01-10T00:00:00.000Z")]])]

/-- C6.  The relief-to-settlement day count is present exactly when both
tracked dates are present and both parse, and then equals the whole-day
difference settlement minus relief (floor, sign preserved: the concrete
record `fonte_invertida`, whose settlement precedes its relief, yields
minus 51, not zero and not absence). -/
theorem dias_tutela_acordo_spec :
    (∀ (source : Json) (pb : ProcessoBase),
        processar_fonte source = Except.ok pb →
        ∀ n : Int,
          pb.dias_tutela_acordo = some n ↔
          ∃ ts sa dt da,
            pb.data_primeira_tutela = some ts ∧
            pb.data_primeiro_acordo = some sa ∧
            pdToDatetime ts = some dt ∧
            pdToDatetime sa = some da ∧
            n = dias_entre dt da) ∧
    Except.map ProcessoBase.dias_tutela_acordo (processar_fonte fonte_invertida)
      = Except.ok (some (-51)) := by
  refine ⟨?_, rfl⟩
  intro source pb hok n
  obtain ⟨_, _, st, _, _, hst, _, _, _, _, _, _, hd1, hd2, hcd⟩ := processar_fonte_ok hok
  obtain ⟨hne1, hne2⟩ := st_datas_ne hst
  rw [hcd, hd1, hd2]
  cases ht : st.data_primeira_tutela with
  | none =>
    cases ha : st.data_primeiro_acordo with
    | none =>
      constructor
      · intro hcontra
        exact Option.noConfusion hcontra
      · rintro ⟨ts', sa', dt', da', hts', _, _, _, _⟩
        exact Option.noConfusion hts'
    | some sa =>
      constructor
      · intro hcontra
        exact Option.noConfusion hcontra
      · rintro ⟨ts', sa', dt', da', hts', _, _, _, _⟩
        exact Option.noConfusion hts'
  | some ts =>
    cases ha : st.data_primeiro_acordo with
    | none =>
      constructor
      · intro hcontra
        exact Option.noConfusion hcontra
      · rintro ⟨ts', sa', dt', da', _, hsa', _, _, _⟩
        exact Option.noConfusion hsa'
    | some sa =>
      have hts : ts ≠ "" := hne1 ts ht
      have hsa : sa ≠ "" := hne2 sa ha
      have hb : (ts != "" && sa != "") = true := by simp [hts, hsa]
      show (if (ts != "" && sa != "") = true then
              (match pdToDatetime ts, pdToDatetime sa with
               | some dt, some da => some (dias_entre dt da)
               | _, _ => none)
            else none) = some n ↔ _
      rw [if_pos hb]
      cases hp1 : pdToDatetime ts with
      | none =>
        constructor
        · intro hcontra
          exact Option.noConfusion hcontra
        · rintro ⟨ts', sa', dt', da', hts', hsa', hdt', hda', hn⟩
          injection hts' with e
          subst e
          rw [hp1] at hdt'
          exact Option.noConfusion hdt'
      | some dt =>
        cases hp2 : pdToDatetime sa with
        | none =>
          constructor
          · intro hcontra
            exact Option.noConfusion hcontra
          · rintro ⟨ts', sa', dt', da', hts', hsa', hdt', hda', hn⟩
            injection hsa' with e
            subst e
            rw [hp2] at hda'
            exact Option.noConfusion hda'
        | some da =>
          constructor
          · intro hh
            injection hh with hh
            exact ⟨ts, sa, dt, da, rfl, rfl, hp1, hp2, hh.symm⟩
          · rintro ⟨ts', sa', dt', da', hts', hsa', hdt', hda', hn⟩
            injection hts' with e
            subst e
            injection hsa' with e2
            subst e2
            rw [hp1] at hdt'
            injection hdt' with e3
            subst e3
            rw [hp2] at hda'
            injection hda' with e4
            subst e4
            rw [hn]

/-! ## Well-formedness: the shapes on which the classifier cannot raise -/

def eh_objeto : Json → Bool
  | Json.obj _ => true
  | _ => false

def eh_iteravel : Json → Bool
  | Json.arr _ => true
  | Json.str _ => true
  | Json.obj _ => true
  | _ => false

/-- The element list Python iteration would produce (empty for
non-iterables; only used under an `eh_iteravel` guard). -/
def itens (j : Json) : List Json :=
  match pyIter j with
  | Except.ok l => l
  | Except.error _ => []

/-- A movement entry the loop can process: either not a dict (skipped), or a
dict whose name value — defaulting to `""` when the key is absent — is a
string. -/
def wf_movimento (m : Json) : Bool :=
  match m with
  | Json.obj kvs =>
    match (List.lookup "nome" kvs).getD (Json.str "") with
    | Json.str _ => true
    | _ => false
  | _ => true

/-- A subject entry the join can digest: a non-dict (skipped), or a dict
whose name value is a string or falsy (only truthy names are appended and
later joined). -/
def wf_assunto (a : Json) : Bool :=
  match a with
  | Json.obj kvs =>
    match (List.lookup "nome" kvs).getD (Json.str "") with
    | Json.str _ => true
    | v => !pyTruthy v
  | _ => true

/-- A `_source` record on which `processar_fonte` cannot raise: a dict whose
`classe` and `orgaoJulgador` values are dicts when present, whose `assuntos`
and `movimentos` values are iterable, and whose subject/movement entries are
well-formed in the senses above. -/
def wf_fonte (source : Json) : Bool :=
  match source with
  | Json.obj kvs =>
    eh_objeto ((List.lookup "classe" kvs).getD (Json.obj [])) &&
    eh_objeto ((List.lookup "orgaoJulgador" kvs).getD (Json.obj [])) &&
    eh_iteravel ((List.lookup "assuntos" kvs).getD (Json.arr [])) &&
    (itens ((List.lookup "assuntos" kvs).getD (Json.arr []))).all wf_assunto &&
    eh_iteravel ((List.lookup "movimentos" kvs).getD (Json.arr [])) &&
    (itens ((List.lookup "movimentos" kvs).getD (Json.arr []))).all wf_movimento
  | _ => false

theorem eh_objeto_obtain (j : Json) (h : eh_objeto j = true) :
    ∃ kvs, j = Json.obj kvs := by
  cases j <;> try exact Bool.noConfusion h
  exact ⟨_, rfl⟩

theorem eh_iteravel_iter (j : Json) (h : eh_iteravel j = true) :
    pyIter j = Except.ok (itens j) := by
  cases j <;> first | rfl | exact Bool.noConfusion h

theorem isOkE_obtain {α : Type} {x : Except String α} (h : isOkE x = true) :
    ∃ a, x = Except.ok a := by
  cases x with
  | ok a => exact ⟨a, rfl⟩
  | error e => exact Bool.noConfusion h

theorem processar_movimento_wf (st : MovState) (m : Json) (hw : wf_movimento m = true) :
    ∃ st2, processar_movimento st m = Except.ok st2 := by
  apply isOkE_obtain
  cases m with
  | obj kvs =>
    unfold wf_movimento at hw
    simp only [] at hw
    cases hn : (List.lookup "nome" kvs).getD (Json.str "") <;> rw [hn] at hw <;>
      simp only [] at hw <;> try exact Bool.noConfusion hw
    unfold processar_movimento
    simp only []
    rw [hn]
    rfl
  | null => rfl
  | bool b => rfl
  | num n => rfl
  | str s => rfl
  | arr l => rfl

theorem processar_movimentos_wf (movs : List Json) (st : MovState)
    (hw : movs.all wf_movimento = true) :
    ∃ st2, processar_movimentos movs st = Except.ok st2 := by
  induction movs generalizing st with
  | nil => exact ⟨st, rfl⟩
  | cons m ms ih =>
    rw [List.all_cons, Bool.and_eq_true] at hw
    obtain ⟨st1, h1⟩ := processar_movimento_wf st m hw.1
    obtain ⟨st2, h2⟩ := ih st1 hw.2
    refine ⟨st2, ?_⟩
    unfold processar_movimentos
    rw [h1]
    exact h2

/-- The name a subject entry appends to the join list, when any. -/
def nome_assunto (a : Json) : Option Json :=
  match a with
  | Json.obj kvs =>
    if pyTruthy ((List.lookup "nome" kvs).getD (Json.str "")) then
      some ((List.lookup "nome" kvs).getD (Json.str ""))
    else none
  | _ => none

theorem coletar_assunto_snd (acc : List String × List Json) (a : Json) :
    (coletar_assunto acc a).2 = acc.2 ++ (nome_assunto a).toList := by
  cases a with
  | obj kvs =>
    unfold coletar_assunto nome_assunto
    simp only []
    cases hc : pyTruthy ((List.lookup "codigo" kvs).getD (Json.str "")) <;>
      cases hn : pyTruthy ((List.lookup "nome" kvs).getD (Json.str "")) <;>
      simp [hc, hn]
  | null => simp [coletar_assunto, nome_assunto]
  | bool b => simp [coletar_assunto, nome_assunto]
  | num n => simp [coletar_assunto, nome_assunto]
  | str s => simp [coletar_assunto, nome_assunto]
  | arr l => simp [coletar_assunto, nome_assunto]

theorem foldl_coletar_snd (l : List Json) (acc : List String × List Json) :
    (l.foldl coletar_assunto acc).2 = acc.2 ++ l.filterMap nome_assunto := by
  induction l generalizing acc with
  | nil => simp
  | cons a tl ih =>
    rw [List.foldl_cons, ih, List.filterMap_cons]
    cases hna : nome_assunto a with
    | none => rw [coletar_assunto_snd]; simp [hna]
    | some v => rw [coletar_assunto_snd]; simp [hna]

theorem wf_assunto_nome (a : Json) (hw : wf_assunto a = true) (v : Json)
    (hv : nome_assunto a = some v) : ∃ s, v = Json.str s := by
  cases a with
  | obj kvs =>
    unfold wf_assunto at hw
    unfold nome_assunto at hv
    simp only [] at hw hv
    cases hn : (List.lookup "nome" kvs).getD (Json.str "") <;> rw [hn] at hw hv <;>
      simp only [] at hw hv
    case str s =>
      cases htr : pyTruthy (Json.str s) <;> rw [htr] at hv
      · exact Option.noConfusion hv
      · rw [if_pos rfl] at hv
        injection hv with hv
        exact ⟨s, hv.symm⟩
    all_goals
      rw [Bool.not_eq_eq_eq_not, Bool.not_true] at hw
      rw [hw] at hv
      exact Option.noConfusion hv
  | null => exact Option.noConfusion hv
  | bool b => exact Option.noConfusion hv
  | num n => exact Option.noConfusion hv
  | str s => exact Option.noConfusion hv
  | arr l => exact Option.noConfusion hv

theorem allStrs_isSome (l : List Json) (h : ∀ x ∈ l, ∃ s, x = Json.str s) :
    ∃ L, allStrs l = some L := by
  induction l with
  | nil => exact ⟨[], rfl⟩
  | cons x tl ih =>
    obtain ⟨s, rfl⟩ := h x (List.mem_cons_self _ _)
    obtain ⟨L, hL⟩ := ih (fun y hy => h y (List.mem_cons_of_mem _ hy))
    refine ⟨s :: L, ?_⟩
    simp only [allStrs]
    rw [hL]
    rfl

/-- A response whose single record carries one movement whose `nome` field is
JSON null — the shape the claim says must not abort classification. -/
def resposta_nome_nulo : Json :=
  Json.obj [("hits", Json.obj [("hits", Json.arr
    [Json.obj [("_source", Json.obj
      [("movimentos", Json.arr [Json.obj [("nome", Json.null)]])])]])])]

/-- C2 (counterexample).  A movement dict whose name value is null makes the
classifier raise (`movimento.get('nome', '').lower()` on `None`), aborting
the whole collection — it is not skipped. -/
theorem classificador_nome_nulo_contra :
    isOkE (coletar_processos_detalhados resposta_nome_nulo) = false := rfl

/-- C2 (amended).  The classifier cannot raise on a record whose sub-fields
are well-shaped (`wf_fonte`): non-dict movement and subject entries are
skipped without touching any accumulator, movement dicts need a string (or
absent) name, and subject dicts need a string-or-falsy name; but (see the
counterexample) a null name value inside a movement dict raises. -/
theorem classificador_wf_ok :
    (∀ source, wf_fonte source = true → isOkE (processar_fonte source) = true) ∧
    (∀ (st : MovState) (m : Json), eh_objeto m = false →
        processar_movimento st m = Except.ok st) ∧
    (∀ (acc : List String × List Json) (a : Json), eh_objeto a = false →
        coletar_assunto acc a = acc) := by
  refine ⟨?_, ?_, ?_⟩
  · intro source hwf
    cases source with
    | null => exact Bool.noConfusion hwf
    | bool b => exact Bool.noConfusion hwf
    | num n => exact Bool.noConfusion hwf
    | str s => exact Bool.noConfusion hwf
    | arr l => exact Bool.noConfusion hwf
    | obj kvs =>
      unfold wf_fonte at hwf
      simp only [Bool.and_eq_true] at hwf
      obtain ⟨⟨⟨⟨⟨hcl, horg⟩, hitA⟩, hwa⟩, hitM⟩, hwm⟩ := hwf
      obtain ⟨ckvs, hck⟩ := eh_objeto_obtain _ hcl
      obtain ⟨okvs, hok2⟩ := eh_objeto_obtain _ horg
      have hiterA := eh_iteravel_iter _ hitA
      have hiterM := eh_iteravel_iter _ hitM
      obtain ⟨L, hL⟩ : ∃ L, allStrs
          (((itens ((List.lookup "assuntos" kvs).getD (Json.arr []))).foldl
            coletar_assunto ([], [])).2) = some L := by
        rw [foldl_coletar_snd]
        apply allStrs_isSome
        intro x hx
        simp only [List.nil_append] at hx
        obtain ⟨a, ha, hna⟩ := List.mem_filterMap.mp hx
        exact wf_assunto_nome a (by
          rw [List.all_eq_true] at hwa
          exact hwa a ha) x hna
      obtain ⟨stf, hstf⟩ :=
        processar_movimentos_wf (itens ((List.lookup "movimentos" kvs).getD (Json.arr []))) {} hwm
      unfold processar_fonte
      simp only [pyGet, exc_bind_ok, hck, hok2, hiterA, hiterM]
      simp only [pyJoin, hL, exc_bind_ok, hstf]
      rfl
  · intro st m hm
    cases m <;> first | rfl | exact Bool.noConfusion hm
  · intro acc a ha
    cases a <;> first | rfl | exact Bool.noConfusion ha

/-- C9.  A falsy response (absent, empty) or any response dict without a
`hits` key makes both record-extraction implementations return the empty
list rather than raising. -/
theorem sem_hits_vazio (resultado : Json)
    (h : resultado = Json.null ∨
         ∃ kvs, resultado = Json.obj kvs ∧ List.lookup "hits" kvs = none) :
    coletar_processos_detalhados resultado = Except.ok [] ∧
    extrair_informacoes resultado = Except.ok [] := by
  rcases h with rfl | ⟨kvs, rfl, hlk⟩
  · exact ⟨rfl, rfl⟩
  · have hck : pyContainsKey (Json.obj kvs) "hits" = Except.ok false := by
      simp [pyContainsKey, hlk]
    constructor
    · unfold coletar_processos_detalhados
      by_cases hke : kvs.isEmpty = true
      · rw [if_pos (by simp [pyTruthy, hke])]
      · rw [if_neg (by simp [pyTruthy, hke]), hck]
        rfl
    · unfold extrair_informacoes
      by_cases hke : kvs.isEmpty = true
      · rw [if_pos (by simp [pyTruthy, hke])]
      · rw [if_neg (by simp [pyTruthy, hke]), hck]
        rfl

/-! ## Witnesses: the hypotheses above are satisfiable on concrete records -/

/-- A fallback row (never reached by the witnesses below). -/
def pb_vazio : ProcessoBase :=
  { numero_processo := Json.null, classe_codigo := Json.null, classe_nome := Json.null,
    data_ajuizamento := none, data_ultima_atualizacao := none,
    orgao_codigo := Json.null, orgao_nome := Json.null,
    assuntos_codigos := "", assuntos_nomes := "",
    tem_tutela := false, tem_acordo := false, tem_deferimento := false,
    tem_indeferimento := false, tem_sentenca := false, tutela_e_acordo := false,
    movimentos_tutela := "", movimentos_acordo := "",
    data_primeira_tutela := none, data_primeiro_acordo := none,
    total_movimentos := 0, dias_tutela_acordo := none, dias_tramitacao := none }

/-- A well-shaped record, with one non-dict movement entry exercising the
skip path. -/
def fonte_exemplo : Json :=
  Json.obj [("numeroProcesso", Json.str "0001"),
    ("classe", Json.obj [("codigo", Json.num 7), ("nome", Json.str "Procedimento Comum")]),
    ("assuntos", Json.arr [Json.obj [("codigo", Json.num 10069), ("nome", Json.str "Saúde")]]),
    ("movimentos", Json.arr
      [Json.obj [("codigo", Json.num 51), ("nome", Json.str "Conclusão"),
                 ("dataHora", Json.str "2024-01-10T00:00:00.000Z")],
       Json.num 7])]

theorem classificador_wf_ok_witness : isOkE (processar_fonte fonte_exemplo) = true :=
  classificador_wf_ok.1 fonte_exemplo rfl

def movimentos_exemplo : List Json :=
  [Json.obj [("codigo", Json.num 11009), ("nome", Json.str "DEFERIMENTO da tutela"),
             ("dataHora", Json.str "2024-02-05T00:00:00.000Z")],
   Json.obj [("nome", Json.str "Indeferimento do pedido")]]

def estado_exemplo : MovState :=
  match processar_movimentos movimentos_exemplo {} with
  | Except.ok st => st
  | Except.error _ => {}

theorem deferimento_indeferimento_spec_witness :
    estado_exemplo.tem_deferimento = movimentos_exemplo.any grant_trig ∧
    estado_exemplo.tem_indeferimento = movimentos_exemplo.any denial_trig :=
  deferimento_indeferimento_spec.1 movimentos_exemplo estado_exemplo rfl

def movimentos_tutela_exemplo : List Json :=
  [Json.obj [("codigo", Json.num 51), ("nome", Json.str "Conclusão"),
             ("dataHora", Json.str "2024-05-01T00:00:00.000Z")],
   Json.obj [("codigo", Json.num 60), ("nome", Json.str "Expedição de documento"),
             ("dataHora", Json.str "2263-01-01T00:00:00.000Z")],
   Json.obj [("codigo", Json.num 85), ("nome", Json.str "Petição"),
             ("dataHora", Json.str "2024-02-01T00:00:00.000Z")]]

def fonte_tutela_exemplo : Json :=
  Json.obj [("movimentos", Json.arr movimentos_tutela_exemplo)]

def pb_tutela_exemplo : ProcessoBase :=
  match processar_fonte fonte_tutela_exemplo with
  | Except.ok pb => pb
  | Except.error _ => pb_vazio

theorem tutela_earliest_spec_witness :
    pb_tutela_exemplo.tem_tutela = movimentos_tutela_exemplo.any tutela_trig ∧
    (pb_tutela_exemplo.data_primeira_tutela = none ↔
      movimentos_tutela_exemplo.filterMap data_tutela = []) ∧
    (∀ d, pb_tutela_exemplo.data_primeira_tutela = some d →
        d ∈ movimentos_tutela_exemplo.filterMap data_tutela ∧
        ∀ x ∈ movimentos_tutela_exemplo.filterMap data_tutela, d ≤ x) ∧
    pb_tutela_exemplo.tem_acordo = movimentos_tutela_exemplo.any acordo_trig ∧
    (pb_tutela_exemplo.data_primeiro_acordo = none ↔
      movimentos_tutela_exemplo.filterMap data_acordo = []) ∧
    (∀ d, pb_tutela_exemplo.data_primeiro_acordo = some d →
        d ∈ movimentos_tutela_exemplo.filterMap data_acordo ∧
        ∀ x ∈ movimentos_tutela_exemplo.filterMap data_acordo, d ≤ x) :=
  tutela_earliest_spec fonte_tutela_exemplo pb_tutela_exemplo
    (Json.arr movimentos_tutela_exemplo) movimentos_tutela_exemplo rfl rfl rfl

def fonte_dias_exemplo : Json :=
  Json.obj [("movimentos", Json.arr
    [Json.obj [("codigo", Json.num 51), ("nome", Json.str "Conclusão"),
               ("dataHora", Json.str "2024-01-10T00:00:00.000Z")],
     Json.obj [("codigo", Json.num 466), ("nome", Json.str "Homologação de Acordo"),
               ("dataHora", Json.str "2024-03-01T00:00:00.000Z")]])]

def pb_dias_exemplo : ProcessoBase :=
  match processar_fonte fonte_dias_exemplo with
  | Except.ok pb => pb
  | Except.error _ => pb_vazio

theorem dias_tutela_acordo_spec_witness :
    pb_dias_exemplo.dias_tutela_acordo = some 51 ↔
    ∃ ts sa dt da,
      pb_dias_exemplo.data_primeira_tutela = some ts ∧
      pb_dias_exemplo.data_primeiro_acordo = some sa ∧
      pdToDatetime ts = some dt ∧
      pdToDatetime sa = some da ∧
      (51 : Int) = dias_entre dt da :=
  dias_tutela_acordo_spec.1 fonte_dias_exemplo pb_dias_exemplo rfl 51

def movimentos_base_exemplo : List Json :=
  [Json.obj [("codigo", Json.num 51), ("nome", Json.str "Conclusão"),
             ("dataHora", Json.str "2024-01-10T00:00:00.000Z")]]

def movimento_novo_exemplo : Json :=
  Json.obj [("nome", Json.str "Homologação de Acordo")]

def estado_base_exemplo : MovState :=
  match processar_movimentos movimentos_base_exemplo {} with
  | Except.ok st => st
  | Except.error _ => {}

def estado_estendido_exemplo : MovState :=
  match processar_movimentos (movimentos_base_exemplo ++ [movimento_novo_exemplo]) {} with
  | Except.ok st => st
  | Except.error _ => {}

theorem flags_monotonas_witness :
    (estado_base_exemplo.tem_tutela = true → estado_estendido_exemplo.tem_tutela = true) ∧
    (estado_base_exemplo.tem_acordo = true → estado_estendido_exemplo.tem_acordo = true) ∧
    (estado_base_exemplo.tem_deferimento = true →
      estado_estendido_exemplo.tem_deferimento = true) ∧
    (estado_base_exemplo.tem_indeferimento = true →
      estado_estendido_exemplo.tem_indeferimento = true) ∧
    (estado_base_exemplo.tem_sentenca = true → estado_estendido_exemplo.tem_sentenca = true) :=
  flags_monotonas movimentos_base_exemplo movimento_novo_exemplo
    estado_base_exemplo estado_estendido_exemplo rfl rfl

theorem sem_hits_vazio_witness :
    coletar_processos_detalhados Json.null = Except.ok [] ∧
    extrair_informacoes Json.null = Except.ok [] :=
  sem_hits_vazio Json.null (Or.inl rfl)
